import Mathlib

/-!
Verification of the GDAL datasource of t-rex (`src/t-rex-gdal/src/gdal_ds.rs`)
against its design specification.

The development shallowly embeds the Rust source: the OGR geometry objects
accessed through the `gdal` crate become an inductive tree, Rust functions
become Lean functions, a Rust `panic!` becomes the `Panics.panicked`
constructor of an explicit outcome type, and a `Result`/fallible library call
becomes `GdalResult`.  Machine integers are modelled by `Int`/`Nat` with the
`as u64` cast made explicit as reduction modulo `2 ^ 64`.

Coordinate values are of Rust type `f64`; the code under verification never
performs arithmetic on them (it only copies them), so they are carried by an
opaque scalar carrier, fixed to `Int` so that equalities are decidable.
-/

namespace TRexGdal

/-- Scalar carrier standing for Rust `f64` coordinate and real-field values.
The adapter only moves these values around (no arithmetic), so any carrier
with decidable equality is a faithful model; `Int` is used. -/
abbrev F64 := Int

/-- Outcome of running a piece of Rust code that may `panic!`:
either a normal value or a panic with its message. -/
inductive Panics (α : Type) where
  | ok (val : α)
  | panicked (msg : String)
  deriving DecidableEq

/-- Result of a fallible `gdal` library call (Rust `Result<_, gdal::errors::Error>`,
carrying only the error message). -/
inductive GdalResult (α : Type) where
  | ok (val : α)
  | err (msg : String)
  deriving DecidableEq

/- ---------------------------------------------------------------------
   The t-rex core geometry model (`core::geom`).
   Modelled from the spec: the crate `core` is not under `src/`; its data
   model is given by spec section 3 (GeometryType tagged union) and by how
   `gdal_ds.rs` constructs the variants.
   --------------------------------------------------------------------- -/

/-- Point of the core geometry model: `{x: f64, y: f64, srid: Option<i32>}`. -/
structure Point where
  x : F64
  y : F64
  srid : Option Int
  deriving DecidableEq

/-- LineString of the core geometry model: ordered points plus srid tag. -/
structure LineString where
  points : List Point
  srid : Option Int
  deriving DecidableEq

/-- Polygon of the core geometry model: ordered rings (first = outer). -/
structure Polygon where
  rings : List LineString
  srid : Option Int
  deriving DecidableEq

/-- MultiPoint of the core geometry model. -/
structure MultiPoint where
  points : List Point
  srid : Option Int
  deriving DecidableEq

/-- MultiLineString of the core geometry model. -/
structure MultiLineString where
  lines : List LineString
  srid : Option Int
  deriving DecidableEq

/-- MultiPolygon of the core geometry model. -/
structure MultiPolygon where
  polygons : List Polygon
  srid : Option Int
  deriving DecidableEq

/-- Tagged union `GeometryType` of the core geometry model (spec section 3).
`GeometryCollection` is reserved/unimplemented in the source and never
produced by the adapter, so it does not appear here. -/
inductive GeometryType where
  | Point (p : Point)
  | LineString (l : LineString)
  | Polygon (p : Polygon)
  | MultiPoint (m : MultiPoint)
  | MultiLineString (m : MultiLineString)
  | MultiPolygon (m : MultiPolygon)
  deriving DecidableEq

/- ---------------------------------------------------------------------
   The OGR side: `gdal::vector::Geometry` as accessed by `gdal_ds.rs`.
   --------------------------------------------------------------------- -/

/-- OGR well-known-binary geometry kind tags (`gdal::vector::WkbType`),
restricted to the tags the adapter distinguishes; every remaining tag falls
into the catch-all arm of the `match` and is represented by `WkbUnknown`. -/
inductive WkbType where
  | WkbUnknown
  | WkbPoint
  | WkbLinestring
  | WkbPolygon
  | WkbMultipoint
  | WkbMultilinestring
  | WkbMultipolygon
  | WkbGeometrycollection
  deriving DecidableEq

/-- Model of an OGR `Geometry` object through the accessors `gdal_ds.rs`
uses: its kind tag (`geometry_type()`), its own coordinate vector with x/y/z
ordinates (`get_point`/`get_point_vec`), and its child sub-geometries
(`geometry_count()` / `_get_geometry(n)`). -/
inductive OgrGeometry where
  | mk (ty : WkbType) (pts : List (F64 × F64 × F64)) (children : List OgrGeometry)

/-- Accessor `geometry_type()`. -/
def OgrGeometry.geometry_type : OgrGeometry → WkbType
  | .mk ty _ _ => ty

/-- Accessor `get_point_vec()`: the geometry's own coordinate vector. -/
def OgrGeometry.get_point_vec : OgrGeometry → List (F64 × F64 × F64)
  | .mk _ pts _ => pts

/-- Accessor `get_point(n)`.  On a well-formed point geometry `n = 0` is in
range; out-of-range access is modelled by an arbitrary default triple. -/
def OgrGeometry.get_point (g : OgrGeometry) (n : Nat) : F64 × F64 × F64 :=
  g.get_point_vec.getD n (0, 0, 0)

/-- Accessor `geometry_count()`. -/
def OgrGeometry.geometry_count : OgrGeometry → Nat
  | .mk _ _ children => children.length

/-- Child list of an OGR geometry; iterating `(0..geometry_count()).map(|n|
self._get_geometry(n))` in the source traverses exactly this list in order. -/
def OgrGeometry.children : OgrGeometry → List OgrGeometry
  | .mk _ _ children => children

/- ---------------------------------------------------------------------
   The geometry adapter `ToGeo::to_geo` of `gdal_ds.rs`.
   --------------------------------------------------------------------- -/

mutual

/-- Embedding of `ToGeo::to_geo` for `gdal::vector::Geometry` (`gdal_ds.rs`
lines 34-130): recursive descent on the OGR kind tag, building the core
geometry model tagged with the layer's srid.  Every `panic!` of the source
is the `panicked` outcome with the source's message. -/
def to_geo (g : OgrGeometry) (srid : Option Int) : Panics GeometryType :=
  match g with
  | .mk ty pts children =>
    match ty with
    | .WkbPoint =>
      let p := pts.getD 0 (0, 0, 0)
      .ok (.Point { x := p.1, y := p.2.1, srid := srid })
    | .WkbMultipoint =>
      match to_geo_points children srid with
      | .ok ps => .ok (.MultiPoint { points := ps, srid := srid })
      | .panicked m => .panicked m
    | .WkbLinestring =>
      .ok (.LineString
        { points := pts.map (fun c => { x := c.1, y := c.2.1, srid := srid }),
          srid := srid })
    | .WkbMultilinestring =>
      match to_geo_linestrings children srid with
      | .ok ls => .ok (.MultiLineString { lines := ls, srid := srid })
      | .panicked m => .panicked m
    | .WkbPolygon =>
      match to_geo_linestrings children srid with
      | .ok rs => .ok (.Polygon { rings := rs, srid := srid })
      | .panicked m => .panicked m
    | .WkbMultipolygon =>
      match to_geo_polygons children srid with
      | .ok ps => .ok (.MultiPolygon { polygons := ps, srid := srid })
      | .panicked m => .panicked m
    | _ => .panicked "Unknown geometry type"

/-- Child conversion of the `WkbMultipoint` arm: each child is converted and
must come back a `Point`, else `panic!("Expected to get a Point")`.  The lazy
Rust iterator stops at the first panic. -/
def to_geo_points (cs : List OgrGeometry) (srid : Option Int) : Panics (List Point) :=
  match cs with
  | [] => .ok []
  | c :: rest =>
    match to_geo c srid with
    | .ok (.Point p) =>
      match to_geo_points rest srid with
      | .ok ps => .ok (p :: ps)
      | .panicked m => .panicked m
    | .ok _ => .panicked "Expected to get a Point"
    | .panicked m => .panicked m

/-- Child conversion shared by the `ring` closure of the `WkbPolygon` arm and
the `WkbMultilinestring` arm: each child must convert to a `LineString`, else
`panic!("Expected to get a LineString")`. -/
def to_geo_linestrings (cs : List OgrGeometry) (srid : Option Int) : Panics (List LineString) :=
  match cs with
  | [] => .ok []
  | c :: rest =>
    match to_geo c srid with
    | .ok (.LineString l) =>
      match to_geo_linestrings rest srid with
      | .ok ls => .ok (l :: ls)
      | .panicked m => .panicked m
    | .ok _ => .panicked "Expected to get a LineString"
    | .panicked m => .panicked m

/-- Child conversion of the `WkbMultipolygon` arm: each child must convert to
a `Polygon`, else `panic!("Expected to get a Polygon")`. -/
def to_geo_polygons (cs : List OgrGeometry) (srid : Option Int) : Panics (List Polygon) :=
  match cs with
  | [] => .ok []
  | c :: rest =>
    match to_geo c srid with
    | .ok (.Polygon p) =>
      match to_geo_polygons rest srid with
      | .ok ps => .ok (p :: ps)
      | .panicked m => .panicked m
    | .ok _ => .panicked "Expected to get a Polygon"
    | .panicked m => .panicked m

end

/- ---------------------------------------------------------------------
   Configuration and core entities used by the datasource.
   Modelled from the spec: `core::layer::Layer`, `core::grid::{Extent, Grid}`
   and `core::feature::{FeatureAttr, FeatureAttrValType}` are not under
   `src/`; their shape is given by spec section 3.
   --------------------------------------------------------------------- -/

/-- Layer configuration entity (spec section 3): identifies the
datasource-native object to query and the id-field mapping. -/
structure Layer where
  name : String
  table_name : Option String
  geometry_type : Option String
  srid : Option Int
  fid_field : Option String
  minzoom : Nat
  maxzoom : Nat
  query : Option String
  deriving DecidableEq

/-- Axis-aligned extent in the grid's spatial reference (spec section 3). -/
structure Extent where
  minx : F64
  miny : F64
  maxx : F64
  maxy : F64
  deriving DecidableEq

/-- Grid configuration (spec section 3): immutable, shared read-only.  The
GDAL datasource receives it but never inspects it, so only the fields named
by the spec are carried. -/
structure Grid where
  tile_size : Nat
  srid : Int
  deriving DecidableEq

/-- Attribute value union `FeatureAttrValType` (spec section 3): one variant
per supported attribute primitive. -/
inductive FeatureAttrValType where
  | String (v : String)
  | Int (v : Int)
  | Double (v : F64)
  | Bool (v : Bool)
  deriving DecidableEq

/-- Attribute key/value pair `FeatureAttr` (spec section 3). -/
structure FeatureAttr where
  key : String
  value : FeatureAttrValType
  deriving DecidableEq

/- ---------------------------------------------------------------------
   The `gdal` crate objects backing a feature.
   --------------------------------------------------------------------- -/

/-- Field value union of the `gdal` crate (`gdal::vector::FieldValue`):
the three variants the crate produces, matched exhaustively by
`VectorFeature::attributes`.  `IntegerValue` carries a Rust `c_int` (i32). -/
inductive FieldValue where
  | StringValue (v : String)
  | IntegerValue (v : Int)
  | RealValue (v : F64)
  deriving DecidableEq

/-- Backing record `gdal::vector::Feature`: the per-name outcome of
`feature.field(name)` plus the value of its single geometry column
(`feature.geometry()`). -/
structure OgrFeature where
  fields : List (String × GdalResult FieldValue)
  geom : OgrGeometry

/-- Library call `feature.field(name)`: looks the field up by name; an
unknown name is an `Err` from the crate. -/
def OgrFeature.field (f : OgrFeature) (name : String) : GdalResult FieldValue :=
  match f.fields.find? (fun p => p.1 == name) with
  | some p => p.2
  | none => .err "Invalid field name"

/-- OGR layer as used by `retrieve_features`: its field definitions
(`defn().fields()`, only the names are consumed) and its feature cursor
(`features()`), in source-native order. -/
structure OgrLayer where
  name : String
  fields_defn : List String
  features : List OgrFeature

/-- OGR dataset: the named layers of the opened file. -/
structure OgrDataset where
  layers : List OgrLayer

/-- Library call `dataset.layer_by_name(name)`. -/
def OgrDataset.layer_by_name (d : OgrDataset) (name : String) : GdalResult OgrLayer :=
  match d.layers.find? (fun l => l.name == name) with
  | some l => .ok l
  | none => .err "Invalid layer name"

/-- Environment for `Dataset::open`: which paths open to which dataset.
Everything else fails to open. -/
abbrev GdalWorld := List (String × OgrDataset)

/-- Library call `gdal::vector::Dataset::open(path)`. -/
def dataset_open (w : GdalWorld) (path : String) : GdalResult OgrDataset :=
  match w.find? (fun p => p.1 == path) with
  | some p => .ok p.2
  | none => .err "Can't open dataset"

/- ---------------------------------------------------------------------
   `VectorFeature` and its `Feature` implementation (`gdal_ds.rs` 133-185).
   --------------------------------------------------------------------- -/

/-- The ephemeral feature view `VectorFeature<'a>` handed to the
`retrieve_features` callback: the layer configuration, the layer's field
definitions, and the backing OGR record. -/
structure VectorFeature where
  layer : Layer
  fields_defn : List String
  feature : OgrFeature

/-- Rust cast `v as u64` for a signed integer `v`: reduction modulo
`2 ^ 64` (two's-complement reinterpretation), yielding an unsigned value. -/
def u64_cast (v : Int) : Nat :=
  (v % (2 : Int) ^ 64).toNat

/-- Embedding of `VectorFeature::fid` (`gdal_ds.rs` 141-152): the configured
fid field's value when the layer declares one and the record's field reads as
an integer, cast `as u64`; `None` in every other case. -/
def VectorFeature.fid (f : VectorFeature) : Option Nat :=
  f.layer.fid_field.bind (fun fid =>
    let field_value := f.feature.field fid
    match field_value with
    | .ok (.IntegerValue v) => some (u64_cast v)
    | _ => none)

/-- Embedding of `VectorFeature::attributes` (`gdal_ds.rs` 153-180): walk the
layer's field definitions in order, read each field by name, map the three
`gdal` value variants to `FeatureAttrValType` (`i32` widens into `i64`
losslessly), and skip a field whose read errors (the source logs a warning). -/
def VectorFeature.attributes (f : VectorFeature) : List FeatureAttr :=
  f.fields_defn.foldl
    (fun attrs name =>
      let field_value := f.feature.field name
      let val : Option FeatureAttrValType :=
        match field_value with
        | .ok (.StringValue v) => some (.String v)
        | .ok (.IntegerValue v) => some (.Int v)
        | .ok (.RealValue v) => some (.Double v)
        | .err _ => none
      match val with
      | some v => attrs ++ [{ key := name, value := v }]
      | none => attrs)
    []

/-- Embedding of `VectorFeature::geometry` (`gdal_ds.rs` 181-184): read the
record's single geometry column, convert it with the layer's srid, and wrap
the result in `Ok`; a panic inside `to_geo` propagates. -/
def VectorFeature.geometry (f : VectorFeature) : Panics (GdalResult GeometryType) :=
  match to_geo f.feature.geom f.layer.srid with
  | .ok g => .ok (.ok g)
  | .panicked m => .panicked m

/- ---------------------------------------------------------------------
   `GdalDatasource::retrieve_features` (`gdal_ds.rs` 187-209).
   --------------------------------------------------------------------- -/

/-- The GDAL datasource: a file path. -/
structure GdalDatasource where
  path : String

/-- Embedding of `GdalDatasource::retrieve_features`: open the dataset at the
datasource's path (`.unwrap()` panics on failure), unwrap the layer's
`table_name`, look the OGR layer up by that name (`.unwrap()` again), and
invoke the callback once per feature of the layer's cursor, in order.  The
value returned is the sequence of `VectorFeature` views passed to the
callback.  The `extent`, `zoom` and `grid` parameters are received but
ignored, exactly as the underscore-prefixed parameters of the source. -/
def GdalDatasource.retrieve_features (w : GdalWorld) (ds : GdalDatasource)
    (layer : Layer) (_extent : Extent) (_zoom : Nat) (_grid : Grid) :
    Panics (List VectorFeature) :=
  match dataset_open w ds.path with
  | .err m => .panicked m
  | .ok dataset =>
    match layer.table_name with
    | none => .panicked "called unwrap on a None value"
    | some tname =>
      match dataset.layer_by_name tname with
      | .err m => .panicked m
      | .ok ogr_layer =>
        .ok (ogr_layer.features.map (fun feat =>
          { layer := layer, fields_defn := ogr_layer.fields_defn, feature := feat }))

/- ---------------------------------------------------------------------
   Derived observations used to state the claims.
   --------------------------------------------------------------------- -/

/-- A point carries srid `s`. -/
def Point.sridIs (p : Point) (s : Option Int) : Bool :=
  p.srid == s

/-- A linestring and all its points carry srid `s`. -/
def LineString.sridIs (l : LineString) (s : Option Int) : Bool :=
  l.srid == s && l.points.all (fun p => p.sridIs s)

/-- A polygon and all its rings carry srid `s`. -/
def Polygon.sridIs (p : Polygon) (s : Option Int) : Bool :=
  p.srid == s && p.rings.all (fun r => r.sridIs s)

/-- Every nested point and nested collection of a converted geometry carries
srid `s`. -/
def GeometryType.sridIs : GeometryType → Option Int → Bool
  | .Point p, s => p.sridIs s
  | .LineString l, s => l.sridIs s
  | .Polygon p, s => p.sridIs s
  | .MultiPoint m, s => m.srid == s && m.points.all (fun p => p.sridIs s)
  | .MultiLineString m, s => m.srid == s && m.lines.all (fun l => l.sridIs s)
  | .MultiPolygon m, s => m.srid == s && m.polygons.all (fun p => p.sridIs s)

/-- X/Y coordinate sequence of a converted geometry, in structural order. -/
def GeometryType.coordsXY : GeometryType → List (F64 × F64)
  | .Point p => [(p.x, p.y)]
  | .LineString l => l.points.map (fun p => (p.x, p.y))
  | .Polygon p => p.rings.flatMap (fun r => r.points.map (fun q => (q.x, q.y)))
  | .MultiPoint m => m.points.map (fun p => (p.x, p.y))
  | .MultiLineString m => m.lines.flatMap (fun l => l.points.map (fun q => (q.x, q.y)))
  | .MultiPolygon m =>
    m.polygons.flatMap (fun p => p.rings.flatMap (fun r => r.points.map (fun q => (q.x, q.y))))

mutual

/-- X/Y coordinate sequence of a source OGR geometry: its own coordinate
vector with the z ordinate dropped, followed by its children's coordinates. -/
def OgrGeometry.coordsXY : OgrGeometry → List (F64 × F64)
  | .mk _ pts children =>
    pts.map (fun c => (c.1, c.2.1)) ++ coordsXY_list children

/-- Concatenated X/Y coordinate sequences of a list of OGR geometries. -/
def coordsXY_list : List OgrGeometry → List (F64 × F64)
  | [] => []
  | c :: rest => c.coordsXY ++ coordsXY_list rest

end

mutual

/-- Well-formedness of a source OGR geometry, as OGR itself guarantees: a
point node holds exactly one coordinate triple and no children, a linestring
node holds no children, and every container node (multipoint,
multilinestring, polygon, multipolygon) holds no coordinate triples of its
own, only well-formed children. -/
def OgrGeometry.wellFormed : OgrGeometry → Bool
  | .mk ty pts children =>
    match ty with
    | .WkbPoint => pts.length == 1 && children.isEmpty
    | .WkbLinestring => children.isEmpty
    | .WkbMultipoint => pts.isEmpty && wellFormed_list children
    | .WkbMultilinestring => pts.isEmpty && wellFormed_list children
    | .WkbPolygon => pts.isEmpty && wellFormed_list children
    | .WkbMultipolygon => pts.isEmpty && wellFormed_list children
    | _ => false

/-- Well-formedness of every OGR geometry in a list. -/
def wellFormed_list : List OgrGeometry → Bool
  | [] => true
  | c :: rest => c.wellFormed && wellFormed_list rest

end

/- ---------------------------------------------------------------------
   Concrete instances, used to evaluate the embedded code at specific
   inputs.
   --------------------------------------------------------------------- -/

/-- A concrete layer configuration: table `points`, srid 3857, zoom range
0..14, no fid field. -/
def sampleLayer : Layer :=
  { name := "points", table_name := some "points", geometry_type := none,
    srid := some 3857, fid_field := none, minzoom := 0, maxzoom := 14,
    query := none }

/-- A concrete backing record holding a single point geometry and no
fields. -/
def sampleOgrFeature : OgrFeature :=
  { fields := [], geom := .mk .WkbPoint [(1, 2, 0)] [] }

/-- A concrete GDAL environment: one dataset at path `natural_earth.gpkg`
with one layer `points` holding one feature. -/
def sampleWorld : GdalWorld :=
  [("natural_earth.gpkg",
    { layers := [{ name := "points", fields_defn := [], features := [sampleOgrFeature] }] })]

/-- Datasource pointing at the sample dataset. -/
def sampleDs : GdalDatasource := { path := "natural_earth.gpkg" }

/-- Datasource pointing at a path that fails to open. -/
def missingDs : GdalDatasource := { path := "missing.gpkg" }

/-- A concrete query extent. -/
def sampleExtent : Extent := { minx := 0, miny := 0, maxx := 1, maxy := 1 }

/-- A concrete grid configuration. -/
def sampleGrid : Grid := { tile_size := 256, srid := 3857 }

/-- An OGR geometry-collection (with one point inside), an unsupported kind
for the adapter. -/
def collectionGeom : OgrGeometry :=
  .mk .WkbGeometrycollection [] [.mk .WkbPoint [(1, 2, 0)] []]

/-- An OGR polygon whose single child ring is a point, not a linestring. -/
def badRingPolygon : OgrGeometry :=
  .mk .WkbPolygon [] [.mk .WkbPoint [(0, 0, 0)] []]

/-- A feature view whose backing record carries a geometry-collection. -/
def collectionFeature : VectorFeature :=
  { layer := sampleLayer, fields_defn := [],
    feature := { fields := [], geom := collectionGeom } }

/-- A feature view with a declared fid field `id` holding integer 7. -/
def sampleFidFeature : VectorFeature :=
  { layer := { sampleLayer with fid_field := some "id" },
    fields_defn := ["id"],
    feature := { fields := [("id", .ok (.IntegerValue 7))],
                 geom := .mk .WkbPoint [(0, 0, 0)] [] } }

/-- A feature view with a declared fid field `id` holding integer -1. -/
def negFidFeature : VectorFeature :=
  { layer := { sampleLayer with fid_field := some "id" },
    fields_defn := ["id"],
    feature := { fields := [("id", .ok (.IntegerValue (-1)))],
                 geom := .mk .WkbPoint [(0, 0, 0)] [] } }

/-- A well-formed OGR multilinestring with one two-point linestring carrying
nonzero z ordinates. -/
def sampleMultiLine : OgrGeometry :=
  .mk .WkbMultilinestring [] [.mk .WkbLinestring [(1, 2, 5), (3, 4, 6)] []]

/-- The core-model geometry the adapter produces for `sampleMultiLine` at
srid 4326. -/
def sampleMultiLineGeo : GeometryType :=
  .MultiLineString
    { lines := [{ points := [{ x := 1, y := 2, srid := some 4326 },
                             { x := 3, y := 4, srid := some 4326 }],
                  srid := some 4326 }],
      srid := some 4326 }

/- ---------------------------------------------------------------------
   Helper lemmas (shared).
   --------------------------------------------------------------------- -/

mutual

/-- Auxiliary srid invariant for `to_geo`, by mutual induction with its list
helpers. -/
theorem sridIs_aux (g : OgrGeometry) (srid : Option Int) (res : GeometryType)
    (h : to_geo g srid = .ok res) : res.sridIs srid = true := by
  obtain ⟨ty, pts, children⟩ := g
  cases ty with
  | WkbPoint =>
    simp only [to_geo] at h
    injection h with h
    subst h
    simp [GeometryType.sridIs, Point.sridIs]
  | WkbLinestring =>
    simp only [to_geo] at h
    injection h with h
    subst h
    simp [GeometryType.sridIs, LineString.sridIs, Point.sridIs, List.all_map]
    intro x a b c _ hx
    subst hx
    rfl
  | WkbMultipoint =>
    simp only [to_geo] at h
    cases hp : to_geo_points children srid with
    | panicked m => simp [hp] at h
    | ok ps =>
      simp only [hp] at h
      injection h with h
      subst h
      have h2 := sridIs_points_aux children srid ps hp
      simp [GeometryType.sridIs, h2]
  | WkbMultilinestring =>
    simp only [to_geo] at h
    cases hp : to_geo_linestrings children srid with
    | panicked m => simp [hp] at h
    | ok ls =>
      simp only [hp] at h
      injection h with h
      subst h
      have h2 := sridIs_linestrings_aux children srid ls hp
      simp [GeometryType.sridIs, h2]
  | WkbPolygon =>
    simp only [to_geo] at h
    cases hp : to_geo_linestrings children srid with
    | panicked m => simp [hp] at h
    | ok rs =>
      simp only [hp] at h
      injection h with h
      subst h
      have h2 := sridIs_linestrings_aux children srid rs hp
      simp [GeometryType.sridIs, Polygon.sridIs, h2]
  | WkbMultipolygon =>
    simp only [to_geo] at h
    cases hp : to_geo_polygons children srid with
    | panicked m => simp [hp] at h
    | ok ps =>
      simp only [hp] at h
      injection h with h
      subst h
      have h2 := sridIs_polygons_aux children srid ps hp
      simp [GeometryType.sridIs, h2]
  | WkbUnknown => simp [to_geo] at h
  | WkbGeometrycollection => simp [to_geo] at h

/-- Auxiliary srid invariant for `to_geo_points`. -/
theorem sridIs_points_aux (cs : List OgrGeometry) (srid : Option Int) (ps : List Point)
    (h : to_geo_points cs srid = .ok ps) : ps.all (fun p => p.sridIs srid) = true := by
  cases cs with
  | nil =>
    simp only [to_geo_points] at h
    injection h with h
    subst h
    simp
  | cons c rest =>
    simp only [to_geo_points] at h
    cases hg : to_geo c srid with
    | panicked m => simp [hg] at h
    | ok gt =>
      cases gt with
      | Point p =>
        simp only [hg] at h
        cases hr : to_geo_points rest srid with
        | panicked m => simp [hr] at h
        | ok ps' =>
          simp only [hr] at h
          injection h with h
          subst h
          have h1 := sridIs_aux c srid (.Point p) hg
          have h2 := sridIs_points_aux rest srid ps' hr
          simp only [GeometryType.sridIs] at h1
          simp [h1, h2]
      | LineString l => simp [hg] at h
      | Polygon p => simp [hg] at h
      | MultiPoint m => simp [hg] at h
      | MultiLineString m => simp [hg] at h
      | MultiPolygon m => simp [hg] at h

/-- Auxiliary srid invariant for `to_geo_linestrings`. -/
theorem sridIs_linestrings_aux (cs : List OgrGeometry) (srid : Option Int) (ls : List LineString)
    (h : to_geo_linestrings cs srid = .ok ls) : ls.all (fun l => l.sridIs srid) = true := by
  cases cs with
  | nil =>
    simp only [to_geo_linestrings] at h
    injection h with h
    subst h
    simp
  | cons c rest =>
    simp only [to_geo_linestrings] at h
    cases hg : to_geo c srid with
    | panicked m => simp [hg] at h
    | ok gt =>
      cases gt with
      | LineString l =>
        simp only [hg] at h
        cases hr : to_geo_linestrings rest srid with
        | panicked m => simp [hr] at h
        | ok ls' =>
          simp only [hr] at h
          injection h with h
          subst h
          have h1 := sridIs_aux c srid (.LineString l) hg
          have h2 := sridIs_linestrings_aux rest srid ls' hr
          simp only [GeometryType.sridIs] at h1
          simp [h1, h2]
      | Point p => simp [hg] at h
      | Polygon p => simp [hg] at h
      | MultiPoint m => simp [hg] at h
      | MultiLineString m => simp [hg] at h
      | MultiPolygon m => simp [hg] at h

/-- Auxiliary srid invariant for `to_geo_polygons`. -/
theorem sridIs_polygons_aux (cs : List OgrGeometry) (srid : Option Int) (ps : List Polygon)
    (h : to_geo_polygons cs srid = .ok ps) : ps.all (fun p => p.sridIs srid) = true := by
  cases cs with
  | nil =>
    simp only [to_geo_polygons] at h
    injection h with h
    subst h
    simp
  | cons c rest =>
    simp only [to_geo_polygons] at h
    cases hg : to_geo c srid with
    | panicked m => simp [hg] at h
    | ok gt =>
      cases gt with
      | Polygon p =>
        simp only [hg] at h
        cases hr : to_geo_polygons rest srid with
        | panicked m => simp [hr] at h
        | ok ps' =>
          simp only [hr] at h
          injection h with h
          subst h
          have h1 := sridIs_aux c srid (.Polygon p) hg
          have h2 := sridIs_polygons_aux rest srid ps' hr
          simp only [GeometryType.sridIs] at h1
          simp [h1, h2]
      | Point p => simp [hg] at h
      | LineString l => simp [hg] at h
      | MultiPoint m => simp [hg] at h
      | MultiLineString m => simp [hg] at h
      | MultiPolygon m => simp [hg] at h

end

mutual

/-- Auxiliary coordinate fidelity for `to_geo` on well-formed sources, by
mutual induction with its list helpers. -/
theorem coords_aux (g : OgrGeometry) (srid : Option Int) (res : GeometryType)
    (hw : g.wellFormed = true) (h : to_geo g srid = .ok res) :
    res.coordsXY = g.coordsXY := by
  obtain ⟨ty, pts, children⟩ := g
  cases ty with
  | WkbPoint =>
    simp only [OgrGeometry.wellFormed, Bool.and_eq_true, beq_iff_eq,
      List.isEmpty_iff] at hw
    obtain ⟨hw1, hw2⟩ := hw
    subst hw2
    cases pts with
    | nil => simp at hw1
    | cons c rest =>
      cases rest with
      | cons d rest' => simp at hw1
      | nil =>
        simp only [to_geo] at h
        injection h with h
        subst h
        simp [GeometryType.coordsXY, OgrGeometry.coordsXY, coordsXY_list]
  | WkbLinestring =>
    simp only [OgrGeometry.wellFormed, List.isEmpty_iff] at hw
    subst hw
    simp only [to_geo] at h
    injection h with h
    subst h
    simp [GeometryType.coordsXY, OgrGeometry.coordsXY, coordsXY_list, List.map_map]
  | WkbMultipoint =>
    simp only [OgrGeometry.wellFormed, Bool.and_eq_true, List.isEmpty_iff] at hw
    obtain ⟨hw1, hw2⟩ := hw
    subst hw1
    simp only [to_geo] at h
    cases hp : to_geo_points children srid with
    | panicked m => simp [hp] at h
    | ok ps =>
      simp only [hp] at h
      injection h with h
      subst h
      have h2 := coords_points_aux children srid ps hw2 hp
      simp [GeometryType.coordsXY, OgrGeometry.coordsXY, h2]
  | WkbMultilinestring =>
    simp only [OgrGeometry.wellFormed, Bool.and_eq_true, List.isEmpty_iff] at hw
    obtain ⟨hw1, hw2⟩ := hw
    subst hw1
    simp only [to_geo] at h
    cases hp : to_geo_linestrings children srid with
    | panicked m => simp [hp] at h
    | ok ls =>
      simp only [hp] at h
      injection h with h
      subst h
      have h2 := coords_linestrings_aux children srid ls hw2 hp
      simp [GeometryType.coordsXY, OgrGeometry.coordsXY, h2]
  | WkbPolygon =>
    simp only [OgrGeometry.wellFormed, Bool.and_eq_true, List.isEmpty_iff] at hw
    obtain ⟨hw1, hw2⟩ := hw
    subst hw1
    simp only [to_geo] at h
    cases hp : to_geo_linestrings children srid with
    | panicked m => simp [hp] at h
    | ok rs =>
      simp only [hp] at h
      injection h with h
      subst h
      have h2 := coords_linestrings_aux children srid rs hw2 hp
      simp [GeometryType.coordsXY, OgrGeometry.coordsXY, h2]
  | WkbMultipolygon =>
    simp only [OgrGeometry.wellFormed, Bool.and_eq_true, List.isEmpty_iff] at hw
    obtain ⟨hw1, hw2⟩ := hw
    subst hw1
    simp only [to_geo] at h
    cases hp : to_geo_polygons children srid with
    | panicked m => simp [hp] at h
    | ok ps =>
      simp only [hp] at h
      injection h with h
      subst h
      have h2 := coords_polygons_aux children srid ps hw2 hp
      simp [GeometryType.coordsXY, OgrGeometry.coordsXY, h2]
  | WkbUnknown => simp [OgrGeometry.wellFormed] at hw
  | WkbGeometrycollection => simp [OgrGeometry.wellFormed] at hw

/-- Auxiliary coordinate fidelity for `to_geo_points`. -/
theorem coords_points_aux (cs : List OgrGeometry) (srid : Option Int) (ps : List Point)
    (hw : wellFormed_list cs = true) (h : to_geo_points cs srid = .ok ps) :
    ps.map (fun p => (p.x, p.y)) = coordsXY_list cs := by
  cases cs with
  | nil =>
    simp only [to_geo_points] at h
    injection h with h
    subst h
    simp [coordsXY_list]
  | cons c rest =>
    simp only [wellFormed_list, Bool.and_eq_true] at hw
    obtain ⟨hwc, hwr⟩ := hw
    simp only [to_geo_points] at h
    cases hg : to_geo c srid with
    | panicked m => simp [hg] at h
    | ok gt =>
      cases gt with
      | Point p =>
        simp only [hg] at h
        cases hr : to_geo_points rest srid with
        | panicked m => simp [hr] at h
        | ok ps' =>
          simp only [hr] at h
          injection h with h
          subst h
          have h1 := coords_aux c srid (.Point p) hwc hg
          have h2 := coords_points_aux rest srid ps' hwr hr
          simp only [GeometryType.coordsXY] at h1
          simp [coordsXY_list, ← h1, h2]
      | LineString l => simp [hg] at h
      | Polygon p => simp [hg] at h
      | MultiPoint m => simp [hg] at h
      | MultiLineString m => simp [hg] at h
      | MultiPolygon m => simp [hg] at h

/-- Auxiliary coordinate fidelity for `to_geo_linestrings`. -/
theorem coords_linestrings_aux (cs : List OgrGeometry) (srid : Option Int) (ls : List LineString)
    (hw : wellFormed_list cs = true) (h : to_geo_linestrings cs srid = .ok ls) :
    ls.flatMap (fun l => l.points.map (fun q => (q.x, q.y))) = coordsXY_list cs := by
  cases cs with
  | nil =>
    simp only [to_geo_linestrings] at h
    injection h with h
    subst h
    simp [coordsXY_list]
  | cons c rest =>
    simp only [wellFormed_list, Bool.and_eq_true] at hw
    obtain ⟨hwc, hwr⟩ := hw
    simp only [to_geo_linestrings] at h
    cases hg : to_geo c srid with
    | panicked m => simp [hg] at h
    | ok gt =>
      cases gt with
      | LineString l =>
        simp only [hg] at h
        cases hr : to_geo_linestrings rest srid with
        | panicked m => simp [hr] at h
        | ok ls' =>
          simp only [hr] at h
          injection h with h
          subst h
          have h1 := coords_aux c srid (.LineString l) hwc hg
          have h2 := coords_linestrings_aux rest srid ls' hwr hr
          simp only [GeometryType.coordsXY] at h1
          simp [coordsXY_list, ← h1, h2]
      | Point p => simp [hg] at h
      | Polygon p => simp [hg] at h
      | MultiPoint m => simp [hg] at h
      | MultiLineString m => simp [hg] at h
      | MultiPolygon m => simp [hg] at h

/-- Auxiliary coordinate fidelity for `to_geo_polygons`. -/
theorem coords_polygons_aux (cs : List OgrGeometry) (srid : Option Int) (ps : List Polygon)
    (hw : wellFormed_list cs = true) (h : to_geo_polygons cs srid = .ok ps) :
    ps.flatMap (fun p => p.rings.flatMap (fun r => r.points.map (fun q => (q.x, q.y))))
      = coordsXY_list cs := by
  cases cs with
  | nil =>
    simp only [to_geo_polygons] at h
    injection h with h
    subst h
    simp [coordsXY_list]
  | cons c rest =>
    simp only [wellFormed_list, Bool.and_eq_true] at hw
    obtain ⟨hwc, hwr⟩ := hw
    simp only [to_geo_polygons] at h
    cases hg : to_geo c srid with
    | panicked m => simp [hg] at h
    | ok gt =>
      cases gt with
      | Polygon p =>
        simp only [hg] at h
        cases hr : to_geo_polygons rest srid with
        | panicked m => simp [hr] at h
        | ok ps' =>
          simp only [hr] at h
          injection h with h
          subst h
          have h1 := coords_aux c srid (.Polygon p) hwc hg
          have h2 := coords_polygons_aux rest srid ps' hwr hr
          simp only [GeometryType.coordsXY] at h1
          simp [coordsXY_list, ← h1, h2]
      | Point p => simp [hg] at h
      | LineString l => simp [hg] at h
      | MultiPoint m => simp [hg] at h
      | MultiLineString m => simp [hg] at h
      | MultiPolygon m => simp [hg] at h

end

/-- Helper: the attribute fold of `VectorFeature::attributes` appends, onto
its accumulator, exactly the mapped values of the readable fields, in
definition order. -/
theorem attributes_go (feat : OgrFeature) (names : List String) (init : List FeatureAttr) :
    names.foldl
      (fun attrs name =>
        let field_value := feat.field name
        let val : Option FeatureAttrValType :=
          match field_value with
          | .ok (.StringValue v) => some (.String v)
          | .ok (.IntegerValue v) => some (.Int v)
          | .ok (.RealValue v) => some (.Double v)
          | .err _ => none
        match val with
        | some v => attrs ++ [{ key := name, value := v }]
        | none => attrs)
      init
    = init ++ names.filterMap (fun name =>
        (match feat.field name with
         | .ok (.StringValue v) => some { key := name, value := .String v }
         | .ok (.IntegerValue v) => some { key := name, value := .Int v }
         | .ok (.RealValue v) => some { key := name, value := .Double v }
         | .err _ => none : Option FeatureAttr)) := by
  induction names generalizing init with
  | nil => simp
  | cons n rest ih =>
    simp only [List.foldl_cons, List.filterMap_cons]
    cases hn : feat.field n with
    | ok fv => cases fv <;> simp [hn, ih]
    | err m => simp [hn, ih]

/- ---------------------------------------------------------------------
   Claims.
   --------------------------------------------------------------------- -/

/-- C1: evaluation of the code at the failing input.  The claim says that a
zoom outside the layer's `minzoom..maxzoom` range yields zero features and
that no feature outside the query extent reaches the callback; but
`GdalDatasource::retrieve_features` ignores its extent and zoom parameters,
so at zoom 22 — above the layer's maxzoom of 14 — the callback is still
invoked once for the layer's feature. -/
theorem retrieve_features_no_zoom_filter :
    sampleLayer.maxzoom < 22 ∧
      GdalDatasource.retrieve_features sampleWorld sampleDs sampleLayer sampleExtent 22 sampleGrid
        = .ok [{ layer := sampleLayer, fields_defn := [], feature := sampleOgrFeature }] :=
  ⟨by decide, rfl⟩

/-- C2: evaluation of the code at the failing input.  The claim says an
unsupported geometry kind (a geometry-collection in particular) yields an
`UnsupportedGeometry` error condition and never a panic; but the catch-all
arm of `to_geo` is `panic!("Unknown geometry type")`, so converting a
geometry-collection panics. -/
theorem to_geo_collection_is_panic :
    to_geo collectionGeom (some 3857) = .panicked "Unknown geometry type" := rfl

/-- C3: evaluation of the code at the failing input.  The claim says a child
sub-geometry of the wrong kind is signaled as an error rather than a panic;
but a polygon whose ring converts to something other than a `LineString`
hits `panic!("Expected to get a LineString")`. -/
theorem to_geo_bad_ring_is_panic :
    to_geo badRingPolygon (some 3857) = .panicked "Expected to get a LineString" := rfl

/-- C4: evaluation of the code at the failing input.  The claim says a
dataset open failure propagates as a `DatasourceUnavailable` error aborting
only that layer's retrieval; but `retrieve_features` calls `.unwrap()` on
`Dataset::open`, so a path that does not open panics (and the same `unwrap`
pattern guards `table_name` and `layer_by_name`). -/
theorem retrieve_features_open_failure_is_panic :
    GdalDatasource.retrieve_features [] missingDs sampleLayer sampleExtent 0 sampleGrid
      = .panicked "Can't open dataset" := rfl

/-- C5: `fid()` returns `Some` of the configured fid field's integer value
(cast `as u64`) exactly when the layer declares a `fid_field` and the backing
record's field reads as an integer, and `None` in every other case; its
return type `Option` carries no error at all. -/
theorem fid_some_iff (f : VectorFeature) (n : Nat) :
    f.fid = some n ↔
      ∃ ff v, f.layer.fid_field = some ff ∧
        f.feature.field ff = .ok (.IntegerValue v) ∧ n = u64_cast v := by
  constructor
  · intro h
    simp only [VectorFeature.fid] at h
    cases hf : f.layer.fid_field with
    | none => rw [hf] at h; simp at h
    | some ff =>
      rw [hf] at h
      simp only [Option.some_bind] at h
      cases hv : f.feature.field ff with
      | ok fv =>
        cases fv with
        | IntegerValue v =>
          rw [hv] at h
          simp only [Option.some.injEq] at h
          exact ⟨ff, v, rfl, hv, h.symm⟩
        | StringValue v => rw [hv] at h; simp at h
        | RealValue v => rw [hv] at h; simp at h
      | err m => rw [hv] at h; simp at h
  · rintro ⟨ff, v, hf, hv, hn⟩
    simp only [VectorFeature.fid, hf, Option.some_bind, hv, hn]

/-- C5 witness: applying the characterization at a concrete feature whose
layer declares fid field `id` holding integer 7. -/
theorem fid_some_iff_witness : sampleFidFeature.fid = some 7 :=
  (fid_some_iff sampleFidFeature 7).mpr ⟨"id", 7, rfl, rfl, by decide⟩

/-- C6: `attributes()` enumerates every field of the layer's field
definitions in order, maps each readable value (string, integer, real) to
its `FeatureAttrValType`, and silently omits a field whose read fails — it
is the `filterMap` of the per-field classification, hence total: it never
propagates an error. -/
theorem attributes_enumeration (f : VectorFeature) :
    f.attributes = f.fields_defn.filterMap (fun name =>
      (match f.feature.field name with
       | .ok (.StringValue v) => some { key := name, value := .String v }
       | .ok (.IntegerValue v) => some { key := name, value := .Int v }
       | .ok (.RealValue v) => some { key := name, value := .Double v }
       | .err _ => none : Option FeatureAttr)) := by
  simp only [VectorFeature.attributes]
  rw [attributes_go]
  simp

/-- C7: every nested point and every nested collection of a successfully
converted geometry is tagged with the srid `to_geo` was given — the layer's
configured srid. -/
theorem to_geo_srid_invariant (g : OgrGeometry) (srid : Option Int) (res : GeometryType)
    (h : to_geo g srid = .ok res) : res.sridIs srid = true :=
  sridIs_aux g srid res h

/-- C7 witness: the invariant applied to a concrete multilinestring
converted at srid 4326. -/
theorem to_geo_srid_invariant_witness :
    GeometryType.sridIs sampleMultiLineGeo (some 4326) = true :=
  to_geo_srid_invariant sampleMultiLine (some 4326) sampleMultiLineGeo rfl

/-- C8: converting a well-formed source geometry of a supported kind and
reading the coordinates back yields exactly the source's X/Y sequence in
order, the z ordinates being discarded — no coordinate is added, lost or
reordered. -/
theorem to_geo_coords_fidelity (g : OgrGeometry) (srid : Option Int) (res : GeometryType)
    (hw : g.wellFormed = true) (h : to_geo g srid = .ok res) :
    res.coordsXY = g.coordsXY :=
  coords_aux g srid res hw h

/-- C8 witness: fidelity applied to a concrete multilinestring whose source
coordinates carry nonzero z ordinates. -/
theorem to_geo_coords_fidelity_witness :
    GeometryType.coordsXY sampleMultiLineGeo = OgrGeometry.coordsXY sampleMultiLine :=
  to_geo_coords_fidelity sampleMultiLine (some 4326) sampleMultiLineGeo rfl rfl

/-- C9: evaluation of the code at the failing input.  The claim says a
conversion failure inside `geometry()` is fatal only for that single feature
(the feature is dropped, the tile survives); but `geometry()` returns
`Ok(to_geo(..))` unconditionally, so the only failure mode of the conversion
is the propagating panic, which no caller confines to one feature. -/
theorem geometry_conversion_failure_is_panic :
    collectionFeature.geometry = .panicked "Unknown geometry type" := rfl

/-- C10: a declared fid field holding a negative integer `v` makes `fid()`
return `Some` of the two's-complement reinterpretation `2 ^ 64 + v` — the
plain `as u64` cast — rather than `None` or an error. -/
theorem fid_negative_two_complement (f : VectorFeature) (ff : String) (v : Int)
    (h1 : f.layer.fid_field = some ff)
    (h2 : f.feature.field ff = .ok (.IntegerValue v))
    (hneg : v < 0) (hlow : -(2 ^ 31) ≤ v) :
    f.fid = some ((2 ^ 64 + v).toNat) := by
  have hv64 : v % (2 : Int) ^ 64 = 2 ^ 64 + v := by
    have h64 : (2 : Int) ^ 64 = 18446744073709551616 := by norm_num
    have h31 : -((2 : Int) ^ 31) = -2147483648 := by norm_num
    rw [h31] at hlow
    rw [h64]
    omega
  simp only [VectorFeature.fid, h1, Option.some_bind, h2, u64_cast, hv64]

/-- C10 witness: a concrete feature whose fid field holds -1 gets feature id
`2 ^ 64 - 1`. -/
theorem fid_negative_two_complement_witness :
    negFidFeature.fid = some ((2 ^ 64 + (-1 : Int)).toNat) :=
  fid_negative_two_complement negFidFeature "id" (-1) rfl rfl (by decide) (by decide)

end TRexGdal
